import Mathlib

/-!
Shallow embedding of the voice-processing pipeline of the
kisan-sahayak-ai repository
(`backend/ai-service/app/voice_pipeline.py`,
`backend/ai-service/app/bhashini_client.py`,
`backend/ai-service/app/voice_models.py`)
together with theorems settling the frozen claims about it.

Strings are modelled as `List Char`; Python floats as `ℚ` (all the
arithmetic the claims mention is exact on the values involved); byte
strings as `List Nat` with entries below 256; fallible Python code as
`Except`/`Option`.
-/

deriving instance DecidableEq for Except

namespace KisanVoice

/-! ### String utilities (Python `str.lower`, `in`, `strip`, `re` on literal patterns) -/

/-- Python `str.lower` (ASCII range, which covers every literal the code uses). -/
def toLowerStr (s : List Char) : List Char := s.map Char.toLower

/-- Boolean "the first list starts the second" test. -/
def isPreB : List Char → List Char → Bool
  | [], _ => true
  | _ :: _, [] => false
  | a :: as, b :: bs => a == b && isPreB as bs

/-- Python's substring operator `p in s`. -/
def containsSub (p : List Char) : List Char → Bool
  | [] => isPreB p []
  | c :: rest => isPreB p (c :: rest) || containsSub p rest

/-- Fuel-driven scan counting non-overlapping occurrences left to right,
exactly as `re.findall` does for a literal pattern. -/
def countFrom (p : List Char) : Nat → List Char → Nat
  | 0, _ => 0
  | _ + 1, [] => 0
  | fuel + 1, c :: rest =>
    if isPreB p (c :: rest) then 1 + countFrom p fuel ((c :: rest).drop p.length)
    else countFrom p fuel rest

/-- `len(re.findall(p, s))` for a literal pattern `p`. -/
def countOccur (p s : List Char) : Nat := countFrom p (s.length + 1) s

/-- Python's default `str.strip` whitespace set. -/
def isSpaceCh (c : Char) : Bool :=
  c == ' ' || c == '\t' || c == '\n' || c == '\r' || c == '\x0b' || c == '\x0c'

/-- Python `str.strip()`. -/
def pyStrip (s : List Char) : List Char :=
  ((s.dropWhile isSpaceCh).reverse.dropWhile isSpaceCh).reverse

/-! ### VoiceActivityDetector (`voice_pipeline.py` lines 31-72) -/

/-- Signed 16-bit reinterpretation of a value below 65536 (`struct` format `h`). -/
def toSigned16 (v : Nat) : Int := if v < 32768 then (v : Int) else (v : Int) - 65536

/-- `struct.unpack('<' + 'h' * (len // 2), chunk)`: little-endian 16-bit
samples; `none` models the `struct.error` raised on an odd byte length. -/
def parseSamples : List Nat → Option (List Int)
  | [] => some []
  | [_] => none
  | b0 :: b1 :: rest => (parseSamples rest).map (fun ss => toSigned16 (b0 + 256 * b1) :: ss)

/-- `VoiceActivityDetector.calculate_energy`.  The `try` block unpacks the
samples and divides the sum of squares by the sample count; only
`struct.error` is caught (yielding 0.0).  On an empty chunk the unpack
succeeds with zero samples and the division raises `ZeroDivisionError`,
which is not caught: that is the `Except.error` case. -/
def calculateEnergy (chunk : List Nat) : Except Unit ℚ :=
  match parseSamples chunk with
  | none => Except.ok 0
  | some [] => Except.error ()
  | some (s :: ss) =>
    Except.ok ((((s :: ss).map (fun x => (x : ℚ) * (x : ℚ))).sum) / (((s :: ss).length : ℚ)))

/-- `VoiceActivityDetectionResult` (the two fields the detector sets). -/
structure VADResult where
  is_speech : Bool
  confidence : ℚ
deriving DecidableEq

/-- `VoiceActivityDetector.ENERGY_THRESHOLD = 0.02` (written as the exact
rational 1/50). -/
def vadThresholdDefault : ℚ := mkRat 1 50

/-- `__init__`: `self.energy_threshold = energy_threshold or self.ENERGY_THRESHOLD`
(Python `or`: a zero argument also falls back to the class default). -/
def vadInit (t : Option ℚ) : ℚ :=
  match t with
  | some x => if x = 0 then vadThresholdDefault else x
  | none => vadThresholdDefault

/-- `VoiceActivityDetector.detect`: propagates the uncaught division error
of `calculate_energy`. -/
def detect (threshold : ℚ) (chunk : List Nat) : Except Unit VADResult :=
  (calculateEnergy chunk).map (fun e =>
    { is_speech := decide (e > threshold)
      confidence := if e > threshold then min (e / threshold) 1 else 0 })

/-! ### FallbackHandler chain (`voice_pipeline.py` lines 336-386) -/

/-- `FallbackMode` enumeration from `voice_models.py`. -/
inductive FallbackMode
  | VOICE
  | TEXT
  | CACHED
deriving DecidableEq, BEq

/-- `self.fallback_chain`, assigned once in `FallbackHandler.__init__` and
never reassigned. -/
def fallbackChain : List FallbackMode := [.VOICE, .TEXT, .CACHED]

/-- `FallbackHandler.get_next_fallback`: `list.index` (a `ValueError`, caught,
yields `None`), then the successor when one exists. -/
def getNextFallback (m : FallbackMode) : Option FallbackMode :=
  match fallbackChain.findIdx? (fun x => x == m) with
  | none => none
  | some i => if i < fallbackChain.length - 1 then fallbackChain.get? (i + 1) else none

/-! ### Data model (`voice_models.py`) -/

/-- `SupportedLanguage` enumeration. -/
inductive SupportedLanguage
  | HINDI
  | BENGALI
  | TAMIL
  | TELUGU
  | MARATHI
  | GUJARATI
  | KANNADA
  | MALAYALAM
  | PUNJABI
  | ODIA
  | ASSAMESE
  | ENGLISH
deriving DecidableEq

/-- `DisambiguationRequest`. -/
structure DisambiguationRequest where
  query : List Char
  options : List (List Char)
  language : SupportedLanguage
deriving DecidableEq

/-- `DisambiguationResponse`. -/
structure DisambiguationResponse where
  selected_option : List Char
  confidence : ℚ
deriving DecidableEq

/-- `LanguageConfig` (all six fields, with the model, voice and speed
defaults from `voice_models.py`). -/
structure LanguageConfig where
  source_language : SupportedLanguage
  target_language : SupportedLanguage
  asr_model : List Char
  nmt_model : List Char
  tts_voice : List Char
  tts_speed : ℚ
deriving DecidableEq

/-! ### IntentRecognizer.is_ambiguous (`voice_pipeline.py` lines 202-241) -/

/-- The `ambiguous_crops` dict, in insertion order. -/
def ambiguousCrops : List (List Char × List (List Char)) :=
  [("rice".data, ["paddy".data, "basmati".data, "parboiled rice".data]),
   ("millet".data, ["bajra".data, "jowar".data, "ragi".data]),
   ("oilseed".data, ["mustard".data, "sunflower".data, "groundnut".data])]

/-- The crop words rule 2 looks for alongside "price"/"rate". -/
def priceCropSet : List (List Char) :=
  ["wheat".data, "rice".data, "cotton".data, "sugarcane".data]

/-- The option list rule 2 returns. -/
def priceOptions : List (List Char) :=
  ["wheat".data, "rice".data, "cotton".data, "sugarcane".data, "soybean".data]

/-- The `for crop, variants in ambiguous_crops.items()` loop: the first crop
contained in the text none of whose variants is contained yields its
variants; a crop whose variant is mentioned is skipped. -/
def findAmbiguousCrop (t : List Char) :
    List (List Char × List (List Char)) → Option (List (List Char))
  | [] => none
  | (crop, variants) :: rest =>
    if containsSub crop t && variants.all (fun v => !containsSub v t) then some variants
    else findAmbiguousCrop t rest

/-- The low-confidence cutoff 0.6 of rule 3. -/
def lowConfidenceCutoff : ℚ := mkRat 3 5

/-- `IntentRecognizer.is_ambiguous`. -/
def isAmbiguous (text : List Char) (confidence : ℚ) : Bool × List (List Char) :=
  let t := toLowerStr text
  match findAmbiguousCrop t ambiguousCrops with
  | some variants => (true, variants)
  | none =>
    if (containsSub ("price".data) t || containsSub ("rate".data) t) &&
        !(priceCropSet.any (fun w => containsSub w t)) then
      (true, priceOptions)
    else if confidence < lowConfidenceCutoff then (true, [])
    else (false, [])

/-- Rule 1 of the claim, phrased with `List.find?`: the first ambiguous crop
named in the text without any of its variants. -/
def rule1Options (t : List Char) : Option (List (List Char)) :=
  (ambiguousCrops.find? (fun p => containsSub p.1 t && p.2.all (fun v => !containsSub v t))).map
    (fun p => p.2)

/-- Rule 2 of the claim: price or rate mentioned, none of the fixed crop set. -/
def rule2Applies (t : List Char) : Bool :=
  (containsSub ("price".data) t || containsSub ("rate".data) t) &&
    !(priceCropSet.any (fun w => containsSub w t))

/-- The claim's description of `is_ambiguous`: the first applicable of
rules 1-4 in order. -/
def isAmbiguousSpec (text : List Char) (confidence : ℚ) : Bool × List (List Char) :=
  let t := toLowerStr text
  match rule1Options t with
  | some opts => (true, opts)
  | none =>
    if rule2Applies t then (true, priceOptions)
    else if confidence < lowConfidenceCutoff then (true, [])
    else (false, [])

/-! ### IntentRecognizer.recognize_intent (`voice_pipeline.py` lines 79-122, 175-200) -/

/-- `INTENT_PATTERNS`, in declaration order.  Every pattern is a literal
word, so `re.search` is substring search and `re.findall` counts
non-overlapping occurrences. -/
def intentTable : List (List Char × List (List Char)) :=
  [("weather_query".data,
    ["weather".data, "forecast".data, "rain".data, "temperature".data, "monsoon".data]),
   ("price_query".data,
    ["price".data, "mandi".data, "rate".data, "cost".data, "market".data]),
   ("scheme_query".data,
    ["scheme".data, "subsidy".data, "government".data, "loan".data, "insurance".data]),
   ("crop_query".data,
    ["crop".data, "cultivation".data, "plant".data, "grow".data, "sow".data]),
   ("disease_query".data,
    ["disease".data, "pest".data, "infection".data, "treatment".data, "cure".data]),
   ("fertilizer_query".data,
    ["fertilizer".data, "nutrient".data, "urea".data, "dap".data, "manure".data])]

/-- `min(0.5 + match_count * 0.1, 0.95)`. -/
def patConf (n : ℕ) : ℚ := min (1 / 2 + (n : ℚ) * (1 / 10)) (19 / 20)

/-- The inner `for pattern in patterns` loop of `recognize_intent`: each
matching pattern proposes `patConf` of its own match count and the
running best is replaced only on a strict improvement. -/
def intentStep (intent t : List Char) (b : List Char × ℚ) : List (List Char) → List Char × ℚ
  | [] => b
  | p :: ps =>
    intentStep intent t
      (if 0 < countOccur p t then
        if patConf (countOccur p t) > b.2 then (intent, patConf (countOccur p t)) else b
      else b) ps

/-- The outer `for intent, patterns in self.intent_patterns.items()` loop. -/
def runIntentTable (t : List Char) :
    List (List Char × List (List Char)) → (List Char × ℚ) → List Char × ℚ
  | [], b => b
  | e :: rest, b => runIntentTable t rest (intentStep e.1 t b e.2)

/-- `IntentRecognizer.recognize_intent`. -/
def recognizeIntent (text : List Char) : List Char × ℚ :=
  runIntentTable (toLowerStr text) intentTable ("general_query".data, 0)

/-- Total number of matches of an intent's patterns, as the claim reads
"matchCount is the number of matches of the intent's patterns". -/
def totalCount (t : List Char) (ps : List (List Char)) : ℕ :=
  (ps.map (fun p => countOccur p t)).sum

/-- One intent of the claim's scoring: `min(0.5 + 0.1*matchCount, 0.95)`
over the total match count, kept on strict improvement (ties keep the
earlier intent). -/
def claimStep (t : List Char) (b : List Char × ℚ) (e : List Char × List (List Char)) :
    List Char × ℚ :=
  if 0 < totalCount t e.2 ∧ patConf (totalCount t e.2) > b.2
  then (e.1, patConf (totalCount t e.2)) else b

/-- The claim's whole scoring pass, in table order. -/
def runClaim (t : List Char) :
    List (List Char × List (List Char)) → (List Char × ℚ) → List Char × ℚ
  | [], b => b
  | e :: rest, b => runClaim t rest (claimStep t b e)

/-- `recognize_intent` as the claim literally states it (total match count
per intent). -/
def recognizeIntentClaimed (text : List Char) : List Char × ℚ :=
  runClaim (toLowerStr text) intentTable ("general_query".data, 0)

/-- Largest single-pattern match count of an intent. -/
def maxCount (t : List Char) : List (List Char) → ℕ
  | [] => 0
  | p :: ps => max (countOccur p t) (maxCount t ps)

/-- One intent of the amended scoring: the intent's score is `patConf` of
its best pattern's match count. -/
def amendedStep (t : List Char) (b : List Char × ℚ) (e : List Char × List (List Char)) :
    List Char × ℚ :=
  if 0 < maxCount t e.2 ∧ patConf (maxCount t e.2) > b.2
  then (e.1, patConf (maxCount t e.2)) else b

/-- The amended scoring pass, in table order. -/
def runAmended (t : List Char) :
    List (List Char × List (List Char)) → (List Char × ℚ) → List Char × ℚ
  | [], b => b
  | e :: rest, b => runAmended t rest (amendedStep t b e)

/-- `recognize_intent` as amended: per-intent score over the maximal
single-pattern match count. -/
def recognizeIntentAmended (text : List Char) : List Char × ℚ :=
  runAmended (toLowerStr text) intentTable ("general_query".data, 0)

/-! ### DisambiguationHandler (`voice_pipeline.py` lines 244-306) -/

/-- `DisambiguationHandler.create_disambiguation`; the fresh `uuid4` id is
supplied by the caller. -/
def createDisambiguation (pending : List (String × DisambiguationRequest))
    (confirmationId : String) (query : List Char) (options : List (List Char))
    (language : SupportedLanguage) : List (String × DisambiguationRequest) :=
  (confirmationId, ⟨query, options, language⟩) :: pending

/-- `del self.pending_disambiguations[confirmation_id]`: dict keys are
unique, so removing every binding of the key is the same operation. -/
def eraseKey (k : String) (m : List (String × DisambiguationRequest)) :
    List (String × DisambiguationRequest) :=
  m.filter (fun p => p.1 != k)

/-- `DisambiguationHandler.resolve_disambiguation`: `None` when the id is
not pending, else remove the record and score the selection
(`1/len(options)` if the option was offered, `0.5` otherwise). -/
def resolveDisambiguation (pending : List (String × DisambiguationRequest))
    (confirmationId : String) (selected : List Char) :
    Option DisambiguationResponse × List (String × DisambiguationRequest) :=
  match pending.lookup confirmationId with
  | none => (none, pending)
  | some req =>
    (some ⟨selected,
        if selected ∈ req.options then 1 / (req.options.length : ℚ) else mkRat 1 2⟩,
      eraseKey confirmationId pending)

/-! ### FallbackHandler response cache (`voice_pipeline.py` lines 365-386) -/

/-- The key normalization both `cache_response` and `get_cached_response`
apply: `query.lower().strip()`. -/
def normQuery (q : List Char) : List Char := pyStrip (toLowerStr q)

/-- `FallbackHandler.cache_response`: dict assignment under the normalized
key; the newest binding shadows older ones. -/
def cacheResponse (cache : List (List Char × List Char)) (query response : List Char) :
    List (List Char × List Char) :=
  (normQuery query, response) :: cache

/-- `FallbackHandler.get_cached_response`. -/
def getCachedResponse (cache : List (List Char × List Char)) (query : List Char) :
    Option (List Char) :=
  cache.lookup (normQuery query)

/-! ### Session language configuration (`voice_pipeline.py` lines 410-434, 662-682) -/

/-- The `LanguageConfig(source_language=language, target_language=ENGLISH)`
constructor call of `configure_language`: every other field takes its
declared default. -/
def mkLanguageConfig (language : SupportedLanguage) : LanguageConfig :=
  ⟨language, .ENGLISH, "default".data, "agriculture".data, "female".data, 1⟩

/-- `VoiceProcessingPipeline.configure_language`. -/
def configureLanguage (configs : List (String × LanguageConfig)) (sessionId : String)
    (language : SupportedLanguage) : List (String × LanguageConfig) :=
  (sessionId, mkLanguageConfig language) :: configs

/-- `VoiceProcessingPipeline.switch_language` delegates to
`configure_language` with the new language. -/
def switchLanguage (configs : List (String × LanguageConfig)) (sessionId : String)
    (newLanguage : SupportedLanguage) : List (String × LanguageConfig) :=
  configureLanguage configs sessionId newLanguage

/-! ### NMT translation (`bhashini_client.py` lines 231-305) -/

/-- `TranslationResponse` from `voice_models.py`. -/
structure TranslationResponse where
  original_text : List Char
  translated_text : List Char
  source_language : SupportedLanguage
  target_language : SupportedLanguage
  confidence : ℚ
  processing_time_ms : ℚ
deriving DecidableEq

/-- `NMTClient.translate`.  `api` is the parsed gateway outcome: `some`
carries the translated text and confidence the response parsing produced;
`none` is a `BhashiniAPIError` (any non-200 status, or all retries of
`_make_request` exhausted), which the method catches, returning the
original text with confidence 0.0.  `dt` is the measured elapsed time for
the non-identity paths. -/
def translate (source target : SupportedLanguage) (text : List Char)
    (api : Option (List Char × ℚ)) (dt : ℚ) : TranslationResponse :=
  if source = target then
    ⟨text, text, source, target, 1, 0⟩
  else
    match api with
    | some (tr, conf) => ⟨text, tr, source, target, conf, dt⟩
    | none => ⟨text, text, source, target, 0, dt⟩

/-! ### IntentRecognizer.extract_entities (`voice_pipeline.py` lines 127-173) -/

/-- The entity map: `crops = []` models the absent key, as does
`none` for the optional entries. -/
structure Entities where
  crops : List (List Char)
  state : Option (List Char)
  quantities : List (ℕ × List Char)
  time : Option (List Char)
deriving DecidableEq

/-- The `crop_names` list. -/
def cropNames : List (List Char) :=
  ["wheat".data, "rice".data, "paddy".data, "cotton".data, "sugarcane".data, "corn".data,
   "maize".data, "soybean".data, "groundnut".data, "mustard".data, "potato".data,
   "tomato".data, "onion".data]

/-- The `indian_states` list. -/
def indianStates : List (List Char) :=
  ["maharashtra".data, "punjab".data, "haryana".data, "uttar pradesh".data,
   "karnataka".data, "andhra pradesh".data, "telangana".data, "tamil nadu".data,
   "west bengal".data, "gujarat".data]

/-- The unit alternation of the quantity pattern
`(\d+)\s*(kg|quintal|ton|acre|hectare|liter|ml)`, in alternation order. -/
def quantityUnits : List (List Char) :=
  ["kg".data, "quintal".data, "ton".data, "acre".data, "hectare".data, "liter".data,
   "ml".data]

/-- The `time_patterns` priority list. -/
def timePatterns : List (List Char × List Char) :=
  [("today".data, "today".data), ("tomorrow".data, "tomorrow".data),
   ("this week".data, "this_week".data), ("next month".data, "next_month".data),
   ("kharif".data, "kharif".data), ("rabi".data, "rabi".data)]

/-- `int(...)` on a digit run. -/
def digitsToNat (ds : List Char) : ℕ :=
  ds.foldl (fun a c => 10 * a + (c.toNat - 48)) 0

/-- Try the quantity pattern anchored at the start of `s`: maximal digit
run, maximal whitespace run, then the first matching unit alternative.
(No regex backtracking can help here: a shorter digit or whitespace run
leaves a digit or whitespace where the unit would have to start.) -/
def matchQuantityAt (s : List Char) : Option (ℕ × List Char × List Char) :=
  let ds := s.takeWhile Char.isDigit
  if ds = [] then none
  else
    let rest1 := s.drop ds.length
    let rest2 := rest1.drop (rest1.takeWhile isSpaceCh).length
    match quantityUnits.find? (fun u => isPreB u rest2) with
    | some u => some (digitsToNat ds, u, rest2.drop u.length)
    | none => none

/-- `re.findall` of the quantity pattern: scan left to right, skipping past
each match (fuel-driven; `length + 1` fuel always suffices). -/
def scanQuantities : ℕ → List Char → List (ℕ × List Char)
  | 0, _ => []
  | _ + 1, [] => []
  | fuel + 1, c :: rest =>
    match matchQuantityAt (c :: rest) with
    | some (v, u, remaining) => (v, u) :: scanQuantities fuel remaining
    | none => scanQuantities fuel rest

/-- `IntentRecognizer.extract_entities`. -/
def extractEntities (text : List Char) : Entities :=
  let t := toLowerStr text
  { crops := cropNames.filter (fun c => containsSub c t)
    state := indianStates.find? (fun st => containsSub st t)
    quantities := scanQuantities (t.length + 1) t
    time := (timePatterns.find? (fun pr => containsSub pr.1 t)).map (fun pr => pr.2) }

/-! ### Response generation (`voice_pipeline.py` lines 572-602) -/

/-- The fixed weather template. -/
def weatherResponse : List Char :=
  ("The weather forecast for your area shows clear skies with temperatures between 25-35°C. No rainfall is expected in the next 7 days.").data

/-- The price template, with the first extracted crop interpolated. -/
def priceResponse (ents : Entities) : List Char :=
  ("Current market prices for ").data ++
    (match ents.crops with
     | c :: _ => c
     | [] => ("agricultural commodities").data) ++
    (" are available. Please check the mandi prices section for details.").data

/-- The fixed scheme template. -/
def schemeResponse : List Char :=
  ("There are several government schemes available for farmers. You can view them in the schemes section of the app.").data

/-- The crop template, with the first extracted crop interpolated. -/
def cropResponse (ents : Entities) : List Char :=
  ("For ").data ++
    (match ents.crops with
     | c :: _ => c
     | [] => ("agricultural").data) ++
    (" cultivation, recommended practices include proper sowing time, adequate irrigation, and timely fertilizer application.").data

/-- The fixed disease template. -/
def diseaseResponse : List Char :=
  ("For crop disease diagnosis, please upload a clear image of the affected plant part in the disease detection section.").data

/-- The fixed fertilizer template. -/
def fertilizerResponse : List Char :=
  ("Fertilizer recommendations depend on soil test results and crop requirements. Please check the fertilizer recommendation section.").data

/-- The general template, also the `.get` default. -/
def generalResponse : List Char :=
  ("I can help you with weather forecasts, mandi prices, government schemes, crop recommendations, and disease detection. What would you like to know about?").data

/-- `VoiceProcessingPipeline._generate_response` (the unused
`query_english` parameter is dropped). -/
def generateResponse (intent : List Char) (ents : Entities) : List Char :=
  if intent = ("weather_query").data then weatherResponse
  else if intent = ("price_query").data then priceResponse ents
  else if intent = ("scheme_query").data then schemeResponse
  else if intent = ("crop_query").data then cropResponse ents
  else if intent = ("disease_query").data then diseaseResponse
  else if intent = ("fertilizer_query").data then fertilizerResponse
  else generalResponse

/-- `", ".join(options)`. -/
def joinCommaSp (xs : List (List Char)) : List Char :=
  List.intercalate (", ").data xs

/-- `DisambiguationHandler.generate_disambiguation_message`: per-language
templates with an English default (the `query` parameter is unused by
every template). -/
def disambiguationMessage (options : List (List Char)) (language : SupportedLanguage) :
    List Char :=
  match language with
  | .HINDI => ("आपका प्रश्न अस्पष्ट है। क्या आपका मतलब है: ").data ++ joinCommaSp options ++ ("?").data
  | .TAMIL => ("உங்கள் கேள்வி தெளிவற்றது. நீங்கள் குறிப்பிட்டது: ").data ++ joinCommaSp options ++ ("?").data
  | .TELUGU => ("మీ ప్రశ్న అస్పష్టం. మీరు అర్థం చేసుకున్నది: ").data ++ joinCommaSp options ++ ("?").data
  | _ => ("Your query is ambiguous. Did you mean: ").data ++ joinCommaSp options ++ ("?").data

/-! ### VoiceProcessingPipeline (`voice_pipeline.py` lines 436-660) -/

/-- The response fields the pipeline computes.  `session_id`,
`processing_time_ms` and timestamps are wall-clock bookkeeping and are
left out; omitted optional fields are `none`/`[]` as in the pydantic
defaults. -/
structure VoiceProcessingResponse where
  user_text : List Char
  user_text_english : List Char
  system_response : List Char
  system_response_audio : Option (List Char)
  intent : Option (List Char)
  entities : Option Entities
  confidence : ℚ
  disambiguation_required : Bool
  disambiguation_options : List (List Char)
  fallback_used : Bool
  fallback_reason : Option (List Char)
deriving DecidableEq

/-- The request fields the pipeline branches on.  `audio` is the decoded
`base64` payload; `audio_format`, `target_language` and `session_id` do
not influence any modelled output. -/
structure VoiceProcessingRequest where
  audio : List Nat
  source_language : SupportedLanguage
  enable_fallback : Bool

/-- The external Bhashini services, as oracles: `asrText` is what
`ASRClient.transcribe` returns (it catches its own API errors and returns
`""` then); `nmtApi` is the parsed NMT gateway outcome per call (`none` =
API failure); `ttsAudio` is what `TTSClient.synthesize` returns (`""` on
failure). -/
structure BhashiniOracle where
  asrText : List Char
  nmtApi : SupportedLanguage → SupportedLanguage → List Char → Option (List Char × ℚ)
  nmtDt : ℚ
  ttsAudio : List Char

/-- The fixed no-fallback apology. -/
def noFallbackMessage : List Char :=
  ("Voice processing failed. Please try again or use text input.").data

/-- The generic please-repeat-or-type message. -/
def textFallbackMessage : List Char :=
  ("Voice recognition failed. Please repeat your query or type it instead.").data

/-- The `f"Voice failed: {error_message}"` prefix text. -/
def voiceFailedTag : List Char := ("Voice failed: ").data

/-- `VoiceProcessingPipeline._fallback_to_text`.  Note the cache lookup key
is the literal empty string: no query text reaches this method. -/
def fallbackToText (enableFallback : Bool) (cache : List (List Char × List Char))
    (errorMessage : List Char) : VoiceProcessingResponse :=
  if !enableFallback then
    ⟨[], [], noFallbackMessage, none, none, none, 0, false, [], true, some errorMessage⟩
  else
    match getCachedResponse cache [] with
    | some r =>
      ⟨[], [], r, none, none, none, 0, false, [], true,
        some (voiceFailedTag ++ errorMessage)⟩
    | none =>
      ⟨[], [], textFallbackMessage, none, none, none, 0, false, [], true,
        some (voiceFailedTag ++ errorMessage)⟩

/-- The fixed no-speech message (not a fallback). -/
def noSpeechMessage : List Char :=
  ("Could not detect speech. Please speak clearly.").data

/-- The no-speech `fallback_reason` text. -/
def noSpeechReason : List Char := ("No speech detected").data

/-- `str(ZeroDivisionError(...))` as it reaches the generic handler when
`detect` divides by zero. -/
def divisionByZeroMessage : List Char := ("division by zero").data

/-- `VoiceProcessingPipeline.process_voice` over the service oracles and
the fallback handler's cache.  The stored language config only feeds TTS
voice/speed parameters, which do not affect any modelled output; TTS
output is the oracle's `ttsAudio`. -/
def processVoice (req : VoiceProcessingRequest) (o : BhashiniOracle)
    (cache : List (List Char × List Char)) : VoiceProcessingResponse :=
  match detect vadThresholdDefault req.audio with
  | Except.error _ => fallbackToText req.enable_fallback cache divisionByZeroMessage
  | Except.ok vadResult =>
    if !vadResult.is_speech then
      ⟨[], [], noSpeechMessage, none, none, none, 0, false, [], false, some noSpeechReason⟩
    else if o.asrText = [] then
      fallbackToText req.enable_fallback cache (("ASR failed").data)
    else
      let userText := o.asrText
      let tr := translate req.source_language .ENGLISH userText
        (o.nmtApi req.source_language .ENGLISH userText) o.nmtDt
      let userTextEnglish := tr.translated_text
      let ir := recognizeIntent userTextEnglish
      let ents := extractEntities userTextEnglish
      let amb := isAmbiguous userTextEnglish ir.2
      if amb.1 && !(amb.2 = []) then
        ⟨userText, userTextEnglish, disambiguationMessage amb.2 req.source_language,
          none, some ir.1, some ents, ir.2, true, amb.2, false, none⟩
      else
        let sysEn := generateResponse ir.1 ents
        let sys :=
          if req.source_language ≠ SupportedLanguage.ENGLISH then
            (translate .ENGLISH req.source_language sysEn
              (o.nmtApi .ENGLISH req.source_language sysEn) o.nmtDt).translated_text
          else sysEn
        ⟨userText, userTextEnglish, sys,
          if o.ttsAudio = [] then none else some o.ttsAudio,
          some ir.1, some ents, ir.2, false, [], false, none⟩

/-! ### Claim theorems (first group) -/

/-- C1: the claim says `detect` is total and treats empty input as silence
`(false, 0.0)`.  The code disagrees: on the empty byte string the sample
tuple is empty and the mean-energy division raises `ZeroDivisionError`
(only `struct.error` is caught), so `detect` raises rather than returning.
Odd-length input, by contrast, is treated as silence as claimed.  This
theorem evaluates the embedded code at the failing input. -/
theorem vad_detect_empty_raises :
    detect (vadInit none) [] = Except.error () ∧
    detect (vadInit none) [0] = Except.ok ⟨false, 0⟩ := by
  constructor <;> decide

/-- The crop loop of `is_ambiguous` is the first-applicable-rule search the
claim describes. -/
theorem findAmbiguousCrop_eq_find (t : List Char) :
    ∀ l : List (List Char × List (List Char)),
      findAmbiguousCrop t l =
        (l.find? (fun p => containsSub p.1 t && p.2.all (fun v => !containsSub v t))).map
          (fun p => p.2)
  | [] => rfl
  | p :: rest => by
    by_cases h : (containsSub p.1 t && p.2.all (fun v => !containsSub v t)) = true
    · simp [findAmbiguousCrop, List.find?, h]
    · simp only [Bool.not_eq_true] at h
      simp [findAmbiguousCrop, List.find?, h, findAmbiguousCrop_eq_find t rest]

/-- C2: `is_ambiguous` evaluates exactly the claimed rules in the claimed
order (stated as equality with the rule-cascade `isAmbiguousSpec`), and on
"What is the rice price" rule 1 fires before the price rule, returning
rice's variant list, whatever the confidence. -/
theorem is_ambiguous_rule_order :
    (∀ text conf, isAmbiguous text conf = isAmbiguousSpec text conf) ∧
    (∀ conf, isAmbiguous ("What is the rice price".data) conf =
      (true, ["paddy".data, "basmati".data, "parboiled rice".data])) := by
  constructor
  · intro text conf
    simp only [isAmbiguous, isAmbiguousSpec, rule1Options, rule2Applies,
      findAmbiguousCrop_eq_find]
  · intro conf
    have h : findAmbiguousCrop (toLowerStr ("What is the rice price".data)) ambiguousCrops =
        some ["paddy".data, "basmati".data, "parboiled rice".data] := by decide
    simp only [isAmbiguous]
    rw [h]

/-- Removing a key really removes it from the pending map. -/
theorem lookup_eraseKey (k : String) :
    ∀ m : List (String × DisambiguationRequest), (eraseKey k m).lookup k = none
  | [] => rfl
  | p :: tl => by
    by_cases h : p.1 = k
    · simp [eraseKey, List.filter, h]
      simpa [eraseKey] using lookup_eraseKey k tl
    · have hb : (p.1 != k) = true := by simp [h]
      have hb2 : (k == p.1) = false := by simp [Ne.symm h]
      simp only [eraseKey, List.filter, hb, List.lookup, hb2]
      simpa [eraseKey] using lookup_eraseKey k tl

/-- C3: disambiguation records are single-use.  Resolving an unknown id
returns `None` and leaves the pending map unchanged; a successful resolve
removes the record (so resolving the same id again returns `None` with no
further change) and scores the selection `1/len(options)` when it was one
of the stored options and `0.5` otherwise. -/
theorem resolve_disambiguation_single_use
    (pending : List (String × DisambiguationRequest)) (id : String) (sel : List Char) :
    (pending.lookup id = none → resolveDisambiguation pending id sel = (none, pending)) ∧
    (∀ req, pending.lookup id = some req →
      (resolveDisambiguation pending id sel).2 = eraseKey id pending ∧
      (eraseKey id pending).lookup id = none ∧
      resolveDisambiguation (eraseKey id pending) id sel = (none, eraseKey id pending) ∧
      (sel ∈ req.options →
        (resolveDisambiguation pending id sel).1 =
          some ⟨sel, 1 / (req.options.length : ℚ)⟩) ∧
      (sel ∉ req.options →
        (resolveDisambiguation pending id sel).1 = some ⟨sel, mkRat 1 2⟩)) := by
  constructor
  · intro h
    simp [resolveDisambiguation, h]
  · intro req h
    refine ⟨by simp [resolveDisambiguation, h], lookup_eraseKey id pending,
      by simp [resolveDisambiguation, lookup_eraseKey id pending], ?_, ?_⟩
    · intro hmem
      simp [resolveDisambiguation, h, hmem]
    · intro hmem
      simp [resolveDisambiguation, h, hmem]

/-- Witness for C3 at a concrete pending map: resolving id "id1" with a
stored option succeeds with confidence 1/3 and empties the map; resolving
against the emptied map returns "not found". -/
theorem resolve_disambiguation_single_use_w :
    (resolveDisambiguation
        [("id1", ⟨"rice price".data, ["paddy".data, "basmati".data, "parboiled rice".data],
          .HINDI⟩)] "id1" "paddy".data).2 = [] ∧
    (resolveDisambiguation
        [("id1", ⟨"rice price".data, ["paddy".data, "basmati".data, "parboiled rice".data],
          .HINDI⟩)] "id1" "paddy".data).1 =
      some ⟨"paddy".data, 1 / ((3 : ℕ) : ℚ)⟩ ∧
    resolveDisambiguation [] "id1" "paddy".data = (none, []) := by
  have h := resolve_disambiguation_single_use
    [("id1", ⟨"rice price".data, ["paddy".data, "basmati".data, "parboiled rice".data],
      .HINDI⟩)] "id1" "paddy".data
  have h2 := h.2 ⟨"rice price".data, ["paddy".data, "basmati".data, "parboiled rice".data],
    .HINDI⟩ (by decide)
  exact ⟨h2.1, h2.2.2.2.1 (by decide),
    (resolve_disambiguation_single_use [] "id1" "paddy".data).1 rfl⟩

/-- C6: for a session whose stored config was created by
`configure_language` (the only way the pipeline stores one),
`switch_language` replaces only the source language: the target stays
English and the ASR model, NMT model, TTS voice and TTS speed keep their
values from before the switch. -/
theorem switch_language_preserves (configs : List (String × LanguageConfig))
    (sessionId : String) (newLanguage : SupportedLanguage) (old : LanguageConfig)
    (hstored : configs.lookup sessionId = some old)
    (hpipe : ∃ l, old = mkLanguageConfig l) :
    (switchLanguage configs sessionId newLanguage).lookup sessionId =
      some (mkLanguageConfig newLanguage) ∧
    (mkLanguageConfig newLanguage).source_language = newLanguage ∧
    (mkLanguageConfig newLanguage).target_language = old.target_language ∧
    (mkLanguageConfig newLanguage).target_language = .ENGLISH ∧
    (mkLanguageConfig newLanguage).asr_model = old.asr_model ∧
    (mkLanguageConfig newLanguage).nmt_model = old.nmt_model ∧
    (mkLanguageConfig newLanguage).tts_voice = old.tts_voice ∧
    (mkLanguageConfig newLanguage).tts_speed = old.tts_speed := by
  obtain ⟨l, rfl⟩ := hpipe
  refine ⟨?_, rfl, rfl, rfl, rfl, rfl, rfl, rfl⟩
  simp [switchLanguage, configureLanguage, List.lookup]

/-- Witness for C6: `configure_language(s, Hindi)` then
`switch_language(s, Tamil)` yields source Tamil, target English, with
model ids, voice and speed unchanged from before the switch. -/
theorem switch_language_preserves_w :
    (switchLanguage (configureLanguage [] "s" .HINDI) "s" .TAMIL).lookup ("s") =
      some (mkLanguageConfig .TAMIL) ∧
    (mkLanguageConfig .TAMIL).source_language = .TAMIL ∧
    (mkLanguageConfig .TAMIL).target_language = (mkLanguageConfig .HINDI).target_language ∧
    (mkLanguageConfig .TAMIL).target_language = .ENGLISH ∧
    (mkLanguageConfig .TAMIL).asr_model = (mkLanguageConfig .HINDI).asr_model ∧
    (mkLanguageConfig .TAMIL).nmt_model = (mkLanguageConfig .HINDI).nmt_model ∧
    (mkLanguageConfig .TAMIL).tts_voice = (mkLanguageConfig .HINDI).tts_voice ∧
    (mkLanguageConfig .TAMIL).tts_speed = (mkLanguageConfig .HINDI).tts_speed :=
  switch_language_preserves (configureLanguage [] "s" .HINDI) "s" .TAMIL
    (mkLanguageConfig .HINDI) rfl ⟨.HINDI, rfl⟩

/-- C8: the response cache case-folds and trims keys on both store and
lookup; the newest store for a normalized key wins; a normalized key never
stored yields `None`. -/
theorem cache_normalized_last_write_wins :
    (∀ cache q q' r, normQuery q = normQuery q' →
      getCachedResponse (cacheResponse cache q r) q' = some r) ∧
    (∀ cache q q' r₁ r₂, normQuery q = normQuery q' →
      getCachedResponse (cacheResponse (cacheResponse cache q r₁) q' r₂) q = some r₂) ∧
    (∀ cache q, (∀ p ∈ cache, p.1 ≠ normQuery q) → getCachedResponse cache q = none) := by
  refine ⟨?_, ?_, ?_⟩
  · intro cache q q' r h
    simp [getCachedResponse, cacheResponse, List.lookup, ← h]
  · intro cache q q' r₁ r₂ h
    simp [getCachedResponse, cacheResponse, List.lookup, ← h]
  · intro cache q h
    induction cache with
    | nil => rfl
    | cons p tl ih =>
      have h1 : ¬(normQuery q == p.1) = true := by
        simp only [beq_iff_eq]
        exact fun hc => (h p (by simp)) hc.symm
      simp only [Bool.not_eq_true] at h1
      simp only [getCachedResponse, List.lookup, h1]
      exact ih fun p hp => h p (List.mem_cons_of_mem _ hp)

/-- Witness for C8: "Wheat Price" stored, "WHEAT PRICE" found; an empty
cache answers `None`. -/
theorem cache_normalized_last_write_wins_w :
    getCachedResponse (cacheResponse [] ("Wheat Price".data) ("resp".data)) ("WHEAT PRICE".data) =
      some ("resp".data) ∧
    getCachedResponse [] ("never asked".data) = none :=
  ⟨cache_normalized_last_write_wins.1 [] ("Wheat Price".data) ("WHEAT PRICE".data) ("resp".data)
      (by decide),
    cache_normalized_last_write_wins.2.2 [] ("never asked".data) (by simp)⟩

/-- `patConf` is monotone in the match count. -/
theorem patConf_mono {a b : ℕ} (h : a ≤ b) : patConf a ≤ patConf b := by
  unfold patConf
  refine min_le_min ?_ le_rfl
  have hc : (a : ℚ) ≤ b := by exact_mod_cast h
  have := mul_le_mul_of_nonneg_right hc (by norm_num : (0 : ℚ) ≤ 1 / 10)
  linarith

/-- `patConf` is a probability-like score. -/
theorem patConf_nonneg (n : ℕ) : 0 ≤ patConf n :=
  le_min (by positivity) (by norm_num)

/-- `patConf` never exceeds one. -/
theorem patConf_le_one (n : ℕ) : patConf n ≤ 1 :=
  le_trans (min_le_right _ _) (by norm_num)

/-- The code's inner pattern loop computes the amended per-intent score:
`patConf` of the intent's best single-pattern match count, kept on strict
improvement. -/
theorem intentStep_eq (intent t : List Char) :
    ∀ (ps : List (List Char)) (b : List Char × ℚ),
      intentStep intent t b ps =
        if 0 < maxCount t ps ∧ patConf (maxCount t ps) > b.2
        then (intent, patConf (maxCount t ps)) else b
  | [], b => by simp [intentStep, maxCount]
  | p :: ps, b => by
    rw [intentStep, intentStep_eq intent t ps, maxCount]
    rcases Nat.eq_zero_or_pos (countOccur p t) with hc | hc
    · simp [hc]
    · rw [if_pos hc]
      by_cases hcb : patConf (countOccur p t) > b.2
      · rw [if_pos hcb]
        dsimp only
        rcases le_total (maxCount t ps) (countOccur p t) with hMc | hcM
        · rw [max_eq_left hMc]
          have hno : ¬ patConf (maxCount t ps) > patConf (countOccur p t) :=
            not_lt.mpr (patConf_mono hMc)
          simp only [hno, and_false, if_false]
          rw [if_pos ⟨hc, hcb⟩]
        · rw [max_eq_right hcM]
          have hM : 0 < maxCount t ps := lt_of_lt_of_le hc hcM
          have hMb : patConf (maxCount t ps) > b.2 :=
            lt_of_lt_of_le hcb (patConf_mono hcM)
          by_cases hMM : patConf (maxCount t ps) > patConf (countOccur p t)
          · rw [if_pos ⟨hM, hMM⟩, if_pos ⟨hM, hMb⟩]
          · rw [if_neg fun hcon => hMM hcon.2, if_pos ⟨hM, hMb⟩]
            have heq : patConf (countOccur p t) = patConf (maxCount t ps) :=
              le_antisymm (patConf_mono hcM) (not_lt.mp hMM)
            rw [heq]
      · rw [if_neg hcb]
        rcases le_total (maxCount t ps) (countOccur p t) with hMc | hcM
        · rw [max_eq_left hMc]
          have h1 : ¬ patConf (maxCount t ps) > b.2 :=
            not_lt.mpr (le_trans (patConf_mono hMc) (not_lt.mp hcb))
          simp only [h1, and_false, if_false]
          rw [if_neg fun hcon => hcb hcon.2]
        · rw [max_eq_right hcM]

/-- The outer loops coincide once the inner loop is rewritten. -/
theorem runIntentTable_eq (t : List Char) :
    ∀ (table : List (List Char × List (List Char))) (b : List Char × ℚ),
      runIntentTable t table b = runAmended t table b
  | [], _ => rfl
  | e :: rest, b => by
    rw [runIntentTable, runAmended, intentStep_eq]
    exact runIntentTable_eq t rest _

/-- If every pattern of every intent has zero matches, the amended pass
returns its initial accumulator. -/
theorem runAmended_no_match (t : List Char) :
    ∀ (table : List (List Char × List (List Char))) (b : List Char × ℚ),
      (∀ e ∈ table, maxCount t e.2 = 0) → runAmended t table b = b
  | [], _, _ => rfl
  | e :: rest, b, h => by
    rw [runAmended, amendedStep, h e (by simp)]
    simp only [lt_irrefl, false_and, if_false]
    exact runAmended_no_match t rest b fun e' he' => h e' (List.mem_cons_of_mem _ he')

/-- Zero matches on every pattern give a zero best count. -/
theorem maxCount_eq_zero (t : List Char) :
    ∀ ps : List (List Char), (∀ p ∈ ps, countOccur p t = 0) → maxCount t ps = 0
  | [], _ => rfl
  | p :: ps, h => by
    rw [maxCount, h p (by simp),
      maxCount_eq_zero t ps fun q hq => h q (List.mem_cons_of_mem _ hq)]
    simp

/-- The amended pass keeps the accumulator inside `[0,1]` with a non-empty
label, provided every table intent has a non-empty name. -/
theorem runAmended_bounds (t : List Char) :
    ∀ (table : List (List Char × List (List Char))) (b : List Char × ℚ),
      (∀ e ∈ table, e.1 ≠ ([] : List Char)) → 0 ≤ b.2 → b.2 ≤ 1 → b.1 ≠ [] →
      0 ≤ (runAmended t table b).2 ∧ (runAmended t table b).2 ≤ 1 ∧
        (runAmended t table b).1 ≠ []
  | [], b, _, h0, h1, hb => ⟨h0, h1, hb⟩
  | e :: rest, b, he, h0, h1, hb => by
    rw [runAmended]
    refine runAmended_bounds t rest _ (fun e' h' => he e' (List.mem_cons_of_mem _ h')) ?_ ?_ ?_
    · unfold amendedStep
      split
      · exact patConf_nonneg _
      · exact h0
    · unfold amendedStep
      split
      · exact patConf_le_one _
      · exact h1
    · unfold amendedStep
      split
      · exact he e (by simp)
      · exact hb

/-- C5 (amended): each intent is scored per pattern — the intent's
confidence is `min(0.5 + 0.1*c, 0.95)` for the largest single-pattern
match count `c`, not the total across patterns; the highest-scoring intent
is kept with ties keeping the earlier-declared intent (strict
improvement); no match at all yields `("general_query", 0.0)`; and the
confidence always lies in `[0,1]` with a non-empty label. -/
theorem recognize_intent_amended :
    (∀ text, recognizeIntent text = recognizeIntentAmended text) ∧
    (∀ text, (∀ e ∈ intentTable, ∀ p ∈ e.2, countOccur p (toLowerStr text) = 0) →
      recognizeIntent text = ("general_query".data, 0)) ∧
    (∀ text, 0 ≤ (recognizeIntent text).2 ∧ (recognizeIntent text).2 ≤ 1 ∧
      (recognizeIntent text).1 ≠ []) := by
  refine ⟨fun text => runIntentTable_eq _ _ _, fun text h => ?_, fun text => ?_⟩
  · rw [recognizeIntent, runIntentTable_eq]
    exact runAmended_no_match _ _ _ fun e he => maxCount_eq_zero _ _ fun p hp => h e he p hp
  · rw [recognizeIntent, runIntentTable_eq]
    exact runAmended_bounds _ _ _ (by decide) le_rfl (by norm_num) (by decide)

/-- Witness for C5's amended theorem: a text matching no pattern lands in
`("general_query", 0.0)`. -/
theorem recognize_intent_amended_w :
    recognizeIntent ("xyz".data) = ("general_query".data, 0) :=
  recognize_intent_amended.2.1 ("xyz".data) (by decide)

/-- C5 (counterexample): on "weather forecast" the code scores 0.6 (best
single pattern has one match), while the claim's formula — total match
count of the intent's patterns, here 2 — would give 0.7. -/
theorem recognize_intent_total_count_false :
    recognizeIntent ("weather forecast".data) = ("weather_query".data, patConf 1) ∧
    recognizeIntentClaimed ("weather forecast".data) = ("weather_query".data, patConf 2) ∧
    patConf 1 = 3 / 5 ∧ patConf 2 = 7 / 10 ∧ (3 / 5 : ℚ) ≠ 7 / 10 := by
  have hp1 : patConf 1 = 3 / 5 := by
    rw [patConf, min_eq_left (by norm_num)]
    norm_num
  have hp2 : patConf 2 = 7 / 10 := by
    rw [patConf, min_eq_left (by norm_num)]
    norm_num
  have hpos1 : (0 : ℚ) < patConf 1 := by rw [hp1]; norm_num
  refine ⟨?_, ?_, hp1, hp2, by norm_num⟩
  · rw [recognizeIntent, runIntentTable_eq]
    have c1 : maxCount (toLowerStr ("weather forecast".data))
        ["weather".data, "forecast".data, "rain".data, "temperature".data, "monsoon".data]
        = 1 := by decide
    have c2 : maxCount (toLowerStr ("weather forecast".data))
        ["price".data, "mandi".data, "rate".data, "cost".data, "market".data] = 0 := by decide
    have c3 : maxCount (toLowerStr ("weather forecast".data))
        ["scheme".data, "subsidy".data, "government".data, "loan".data, "insurance".data]
        = 0 := by decide
    have c4 : maxCount (toLowerStr ("weather forecast".data))
        ["crop".data, "cultivation".data, "plant".data, "grow".data, "sow".data] = 0 := by
      decide
    have c5 : maxCount (toLowerStr ("weather forecast".data))
        ["disease".data, "pest".data, "infection".data, "treatment".data, "cure".data]
        = 0 := by decide
    have c6 : maxCount (toLowerStr ("weather forecast".data))
        ["fertilizer".data, "nutrient".data, "urea".data, "dap".data, "manure".data]
        = 0 := by decide
    simp only [intentTable, runAmended, amendedStep, c1, c2, c3, c4, c5, c6, lt_irrefl,
      false_and, if_false, Nat.lt_irrefl]
    rw [if_pos ⟨Nat.zero_lt_one, hpos1⟩]
  · rw [recognizeIntentClaimed]
    have d1 : totalCount (toLowerStr ("weather forecast".data))
        ["weather".data, "forecast".data, "rain".data, "temperature".data, "monsoon".data]
        = 2 := by decide
    have d2 : totalCount (toLowerStr ("weather forecast".data))
        ["price".data, "mandi".data, "rate".data, "cost".data, "market".data] = 0 := by decide
    have d3 : totalCount (toLowerStr ("weather forecast".data))
        ["scheme".data, "subsidy".data, "government".data, "loan".data, "insurance".data]
        = 0 := by decide
    have d4 : totalCount (toLowerStr ("weather forecast".data))
        ["crop".data, "cultivation".data, "plant".data, "grow".data, "sow".data] = 0 := by
      decide
    have d5 : totalCount (toLowerStr ("weather forecast".data))
        ["disease".data, "pest".data, "infection".data, "treatment".data, "cure".data]
        = 0 := by decide
    have d6 : totalCount (toLowerStr ("weather forecast".data))
        ["fertilizer".data, "nutrient".data, "urea".data, "dap".data, "manure".data]
        = 0 := by decide
    have hpos2 : (0 : ℚ) < patConf 2 := by rw [hp2]; norm_num
    simp only [intentTable, runClaim, claimStep, d1, d2, d3, d4, d5, d6, lt_irrefl,
      false_and, if_false, Nat.lt_irrefl]
    rw [if_pos ⟨Nat.zero_lt_two, hpos2⟩]

/-- Every list starts itself. -/
theorem isPreB_self : ∀ s : List Char, isPreB s s = true
  | [] => rfl
  | c :: cs => by rw [isPreB]; simp [isPreB_self cs]

/-- Every string contains itself. -/
theorem containsSub_self : ∀ s : List Char, containsSub s s = true
  | [] => rfl
  | c :: cs => by rw [containsSub]; simp [isPreB_self]

/-- A string contains any of its suffixes' occurrences: prepending text
preserves containment. -/
theorem containsSub_append (pre s : List Char) : containsSub s (pre ++ s) = true := by
  induction pre with
  | nil => simpa using containsSub_self s
  | cons a pre ih =>
    rw [List.cons_append, containsSub]
    simp [ih]

/-- `detect` on a chunk whose energy computation succeeds. -/
theorem detect_ok (audio : List Nat) (e : ℚ) (h : calculateEnergy audio = Except.ok e) :
    detect vadThresholdDefault audio =
      Except.ok ⟨decide (e > vadThresholdDefault),
        if e > vadThresholdDefault then min (e / vadThresholdDefault) 1 else 0⟩ := by
  rw [detect, h]
  rfl

/-- C4: `_fallback_to_text` always sets `fallback_used`, never populates
intent or entities, and carries the triggering error text inside
`fallback_reason`; with fallback disabled it returns the fixed "please try
again" response with the raw error as reason; with fallback enabled it
returns the cache entry under the only available query text — the empty
string — when present, else the generic "please repeat or type" message.
And an empty ASR transcript sends `process_voice` into exactly this
function with reason "ASR failed". -/
theorem fallback_to_text_contract :
    (∀ (enable : Bool) (cache : List (List Char × List Char)) (err : List Char),
      (fallbackToText enable cache err).fallback_used = true ∧
      (fallbackToText enable cache err).intent = none ∧
      (fallbackToText enable cache err).entities = none ∧
      (∃ r, (fallbackToText enable cache err).fallback_reason = some r ∧
        containsSub err r = true) ∧
      (enable = false →
        fallbackToText enable cache err =
          ⟨[], [], noFallbackMessage, none, none, none, 0, false, [], true, some err⟩) ∧
      (∀ r, enable = true → getCachedResponse cache [] = some r →
        (fallbackToText enable cache err).system_response = r) ∧
      (enable = true → getCachedResponse cache [] = none →
        (fallbackToText enable cache err).system_response = textFallbackMessage)) ∧
    (∀ (req : VoiceProcessingRequest) (o : BhashiniOracle) cache (e : ℚ),
      calculateEnergy req.audio = Except.ok e → vadThresholdDefault < e →
      o.asrText = [] →
      processVoice req o cache =
        fallbackToText req.enable_fallback cache (("ASR failed").data)) := by
  constructor
  · intro enable cache err
    cases enable with
    | false =>
      refine ⟨rfl, rfl, rfl, ⟨err, rfl, containsSub_self err⟩, fun _ => rfl,
        fun r h => absurd h (by simp), fun h => absurd h (by simp)⟩
    | true =>
      cases hcache : getCachedResponse cache [] with
      | none =>
        refine ⟨?_, ?_, ?_, ?_, fun h => absurd h (by simp), ?_, ?_⟩ <;>
          simp [fallbackToText, hcache, containsSub_append]
      | some r =>
        refine ⟨?_, ?_, ?_, ?_, fun h => absurd h (by simp), ?_, ?_⟩ <;>
          simp [fallbackToText, hcache, containsSub_append]
  · intro req o cache e h1 h2 h3
    have hdet := detect_ok req.audio e h1
    have hsp : decide (e > vadThresholdDefault) = true := decide_eq_true h2
    rw [processVoice, hdet]
    dsimp only
    rw [hsp]
    simp [h3]

/-- Witness for C4: with fallback disabled the fixed message and the raw
reason come back; an empty ASR transcript on a speech-bearing chunk routes
into `_fallback_to_text` with reason "ASR failed". -/
theorem fallback_to_text_contract_w :
    fallbackToText false [] (("boom").data) =
      ⟨[], [], noFallbackMessage, none, none, none, 0, false, [], true,
        some (("boom").data)⟩ ∧
    processVoice ⟨[1, 0], .HINDI, true⟩ ⟨[], fun _ _ _ => none, 7, []⟩ [] =
      fallbackToText true [] (("ASR failed").data) := by
  constructor
  · exact (fallback_to_text_contract.1 false [] (("boom").data)).2.2.2.2.1 rfl
  · exact fallback_to_text_contract.2 ⟨[1, 0], .HINDI, true⟩
      ⟨[], fun _ _ _ => none, 7, []⟩ [] 1
      (by simp [calculateEnergy, parseSamples, toSigned16]) (by decide) rfl

/-- The `source == target` early return of `NMTClient.translate`. -/
theorem translate_same (lang : SupportedLanguage) (text : List Char)
    (api : Option (List Char × ℚ)) (dt : ℚ) :
    translate lang lang text api dt = ⟨text, text, lang, lang, 1, 0⟩ := by
  rw [translate.eq_def, if_pos rfl]

/-- C7: `translate` with equal source and target is an identity pass —
original text returned unchanged, confidence 1.0, zero reported latency,
and the result does not depend on the gateway oracle (no network call);
in the pipeline, an English-source request therefore gets
`user_text_english = user_text` whatever the NMT oracle does. -/
theorem translate_identity_shortcut :
    (∀ (lang : SupportedLanguage) (text : List Char) (api : Option (List Char × ℚ)) (dt : ℚ),
      translate lang lang text api dt = ⟨text, text, lang, lang, 1, 0⟩) ∧
    (∀ (req : VoiceProcessingRequest) (o : BhashiniOracle) cache (e : ℚ),
      calculateEnergy req.audio = Except.ok e → vadThresholdDefault < e →
      o.asrText ≠ [] → req.source_language = SupportedLanguage.ENGLISH →
      (processVoice req o cache).user_text = o.asrText ∧
      (processVoice req o cache).user_text_english = o.asrText) := by
  constructor
  · exact translate_same
  · intro req o cache e h1 h2 h3 hsrc
    have hdet := detect_ok req.audio e h1
    have hsp : decide (e > vadThresholdDefault) = true := decide_eq_true h2
    rw [processVoice, hdet]
    dsimp only
    rw [hsp]
    simp only [Bool.not_true, Bool.false_eq_true, if_false, if_neg h3, hsrc]
    rw [translate_same]
    dsimp only
    constructor <;> (split <;> rfl)

/-- Witness for C7: a Tamil-to-Tamil call is the identity with confidence
1 and zero latency even when the gateway would fail, and an
English-source pipeline run passes the transcript through unchanged. -/
theorem translate_identity_shortcut_w :
    translate .TAMIL .TAMIL (("vanakkam").data) none 9 =
      ⟨("vanakkam").data, ("vanakkam").data, .TAMIL, .TAMIL, 1, 0⟩ ∧
    (processVoice ⟨[1, 0], .ENGLISH, true⟩
        ⟨("weather update").data, fun _ _ _ => none, 7, []⟩ []).user_text_english =
      ("weather update").data := by
  constructor
  · exact translate_identity_shortcut.1 .TAMIL (("vanakkam").data) none 9
  · exact (translate_identity_shortcut.2 ⟨[1, 0], .ENGLISH, true⟩
      ⟨("weather update").data, fun _ _ _ => none, 7, []⟩ [] 1
      (by simp [calculateEnergy, parseSamples, toSigned16]) (by decide) (by decide) rfl).2

/-- C10: a gateway failure (including exhausted retries) never escapes
`translate` — it returns the original text with confidence 0.0 — and a
translation failure alone never sends `process_voice` into the
fallback-to-text path: with speech detected and a non-empty transcript,
`fallback_used` is false whatever the NMT oracle answers. -/
theorem translate_failure_no_fallback :
    (∀ (src tgt : SupportedLanguage) (text : List Char) (dt : ℚ), src ≠ tgt →
      translate src tgt text none dt = ⟨text, text, src, tgt, 0, dt⟩) ∧
    (∀ (req : VoiceProcessingRequest) (o : BhashiniOracle) cache (e : ℚ),
      calculateEnergy req.audio = Except.ok e → vadThresholdDefault < e →
      o.asrText ≠ [] →
      (processVoice req o cache).fallback_used = false) := by
  constructor
  · intro src tgt text dt h
    rw [translate.eq_def, if_neg h]
  · intro req o cache e h1 h2 h3
    have hdet := detect_ok req.audio e h1
    have hsp : decide (e > vadThresholdDefault) = true := decide_eq_true h2
    rw [processVoice, hdet]
    dsimp only
    rw [hsp]
    simp only [Bool.not_true, Bool.false_eq_true, if_false, if_neg h3]
    split <;> rfl

/-- Witness for C10: a failing gateway call returns the input text with
confidence 0, and a pipeline run whose NMT oracle always fails still ends
with `fallback_used = false`. -/
theorem translate_failure_no_fallback_w :
    translate .HINDI .ENGLISH (("namaste").data) none 5 =
      ⟨("namaste").data, ("namaste").data, .HINDI, .ENGLISH, 0, 5⟩ ∧
    (processVoice ⟨[1, 0], .HINDI, true⟩
        ⟨("mausam").data, fun _ _ _ => none, 7, []⟩ []).fallback_used = false := by
  constructor
  · exact translate_failure_no_fallback.1 .HINDI .ENGLISH (("namaste").data) 5 (by decide)
  · exact translate_failure_no_fallback.2 ⟨[1, 0], .HINDI, true⟩
      ⟨("mausam").data, fun _ _ _ => none, 7, []⟩ [] 1
      (by simp [calculateEnergy, parseSamples, toSigned16]) (by decide) (by decide)

/-- C9: the fallback chain is the constant total order
Voice → Text → Cached → none. -/
theorem fallback_chain_total_order :
    getNextFallback .VOICE = some .TEXT ∧
    getNextFallback .TEXT = some .CACHED ∧
    getNextFallback .CACHED = none := by
  refine ⟨rfl, rfl, rfl⟩

end KisanVoice
